import Mathlib

/-!
Verification of the lale halving-grid-search orchestrator and the
schema-described estimator wrappers.

The development shallowly embeds the Python sources:

* `src/lale/lib/lale/halving_grid_search_cv.py` — the class
  `_HalvingGridSearchCVImpl` (`__init__`, `fit`, `predict`).  Instance state
  becomes explicit state passing (`HGSState`), exceptions become an `err`
  field of the fit result (the mutated state survives a raise, as in Python),
  and calls on the observer become an explicit event trace.
* `src/lale/lib/sklearn/decision_tree_regressor.py` — `DecisionTreeRegressorImpl`.
* `src/lale/lib/sklearn/dummy_classifier.py` — the `DummyClassifier` operator.

External code that the repository merely calls (sklearn's
`HalvingGridSearchCV`, `lale.search.lale_grid_search_cv.get_parameter_grids`,
`lale.helpers.fold_schema`, `get_defaults_as_param_grid`) is abstracted into
an environment `ExternalEnv` of opaque-but-executable function parameters, so
the theorems quantify over every possible behaviour of the external library.
Repository code that is not under `src/` (`lale.lib.lale.observing`,
`lale.helpers.nest_HPparams`, `lale.sklearn_compat.make_sklearn_compat`,
`lale.lib.sklearn.LogisticRegression`) is modelled from the spec, as marked
in the corresponding doc comments.
-/

namespace LaleSpec

/-- Exceptions that the embedded code can raise.  `external e` stands for an
arbitrary exception raised inside the external search routine. -/
inductive Exc where
  | attributeError (msg : String)
  | assertionError
  | external (code : Nat)
  deriving DecidableEq, Repr

/-- A lale operator, as far as the orchestrator observes it: an identity, and
the three predicates the `fit` method branches on (`is_classifier()`,
`isinstance(op, IndividualOp)`, `isinstance(op, TrainableOperator)`). -/
structure Operator where
  id : Nat
  is_classifier : Bool
  isIndividualOp : Bool
  isTrainable : Bool
  deriving DecidableEq, Repr

/-- A trained operator: the result of `op.fit(X, y)`.  It records which
operator was trained on which data, so that distinct refits are
distinguishable. -/
structure TrainedOperator where
  op : Operator
  trainX : Nat
  trainY : Nat
  deriving DecidableEq, Repr

/-- Embedding of `op.fit(X, y)` for a lale trainable operator. -/
def Operator.fitOp (op : Operator) (X y : Nat) : TrainedOperator :=
  ⟨op, X, y⟩

/-- A prediction: the result of `trained.predict(X)`. -/
structure Prediction where
  trained : TrainedOperator
  predX : Nat
  deriving DecidableEq, Repr

/-- Embedding of `trained.predict(X)` for a trained lale operator. -/
def TrainedOperator.predictT (t : TrainedOperator) (X : Nat) : Prediction :=
  ⟨t, X⟩

/-- An observer object (already instantiated). -/
structure Observer where
  id : Nat
  deriving DecidableEq, Repr

/-- The `observer` constructor argument: `None`, an instance, or a class
(`isinstance(observer, type)`); instantiating the class yields the carried
instance. -/
inductive ObserverArg where
  | noObs
  | inst (o : Observer)
  | cls (o : Observer)
  deriving DecidableEq, Repr

/-- A hyperparameter binding: name and (abstracted) value. -/
abbrev Param := String × Nat

/-- The shape of a hyperparameter grid as `fit` handles it: either a list of
dictionaries or a single dictionary. -/
inductive ParamGridArg where
  | listGrid (gs : List (List Param))
  | dictGrid (g : List Param)
  deriving DecidableEq, Repr

/-- Python truthiness of a grid: `not hp_grid` is true exactly for an empty
list or an empty dict. -/
def ParamGridArg.isFalsy : ParamGridArg → Bool
  | .listGrid gs => gs.isEmpty
  | .dictGrid g => g.isEmpty

/-- Modelled from the spec: `lale.helpers.nest_HPparams` is not under `src/`.
The spec says a manual dict grid is "nested under the prefix op", so each key
is put below the given name (sklearn's double-underscore nesting). -/
def nest_HPparams (pfx : String) (g : List Param) : List Param :=
  g.map (fun kv => (pfx ++ "__" ++ kv.1, kv.2))

/-- Modelled from the spec: `lale.helpers.nest_all_HPparams` is not under
`src/`.  Every entry of a manual list grid is nested under the given name. -/
def nest_all_HPparams (pfx : String) (gs : List (List Param)) : List (List Param) :=
  gs.map (nest_HPparams pfx)

/-- Modelled from the spec: `lale.lib.lale.observing.Observing` is not under
`src/`.  The spec says it "adapts an operator to emit lifecycle notifications
(start/end/fail) around named phases"; the wrapper pairs the operator with the
observer, and the lifecycle notifications themselves are emitted by the
orchestrator's `fit` as an explicit event trace. -/
structure ObservingOp where
  op : Operator
  observer : Option Observer
  deriving DecidableEq, Repr

/-- Constructor call `Observing(op=op, observer=obs)`. -/
def Observing (op : Operator) (observer : Option Observer) : ObservingOp :=
  ⟨op, observer⟩

/-- Modelled from the spec: `lale.sklearn_compat.make_sklearn_compat` is not
under `src/`.  The spec says `fit` "wraps the estimator for compatibility"
before handing it to the external search; the wrapper is injective. -/
structure CompatOp where
  inner : ObservingOp
  deriving DecidableEq, Repr

def make_sklearn_compat (o : ObservingOp) : CompatOp :=
  ⟨o⟩

/-- Modelled from the spec: `lale.lib.sklearn.LogisticRegression` is not under
`src/`.  It is the default operator when no estimator was supplied; it is a
classifier, an individual operator, and trainable. -/
def LogisticRegression : Operator :=
  ⟨0, true, true, true⟩

/-- The `_impl` of the observing wrapper carried by a best estimator returned
from the search.  Modelled from the spec: `ObservingImpl` (from
`lale.lib.lale.observing`, not under `src/`) holds the wrapped operator and
`getOp` returns it ("unwrap the winning configuration back into the
framework's own operator representation"). -/
structure ObservingImplR where
  op : Operator
  observer : Option Observer
  deriving DecidableEq, Repr

def ObservingImplR.getOp (i : ObservingImplR) : Operator :=
  i.op

/-- The best estimator returned by the external search: either it carries an
observing `_impl` (`getattr(be, "_impl", None)` is not `None`) or it does
not. -/
inductive SearchBest where
  | withImpl (impl : ObservingImplR)
  | noImpl (op : Operator)
  deriving DecidableEq, Repr

/-- Whether the best estimator carries an observing `_impl`. -/
def SearchBest.hasImpl : SearchBest → Bool
  | .withImpl _ => true
  | .noImpl _ => false

/-- A data schema, abstract (`lale.helpers.fold_schema` result). -/
abbrev Schema := Nat

/-- The hyperparameter dictionary built by `__init__` (the keys of
`self._hyperparams`, in source order). -/
structure Hyperparams where
  estimator : Option Operator
  cv : Nat
  scoring : String
  n_jobs : Option Int
  lale_num_samples : Option Nat
  lale_num_grids : Option Nat
  pgo : Option Nat
  hp_grid : Option ParamGridArg
  observer : Option Observer
  deriving DecidableEq, Repr

/-- The sklearn `HalvingGridSearchCV` object stored into `self.grid`: the
arguments of its constructor call in `fit`. -/
structure GridObj where
  est : CompatOp
  grid : ParamGridArg
  cv : Nat
  scoring : String
  n_jobs : Option Int
  deriving DecidableEq, Repr

/-- The instance state of `_HalvingGridSearchCVImpl`: the hyperparameter
dictionary, the stored best estimator (class attribute, initially `None`), and
the stored search object `self.grid` (absent until `fit` sets it). -/
structure HGSState where
  hyperparams : Hyperparams
  best_estimator : Option TrainedOperator
  grid : Option GridObj
  deriving DecidableEq, Repr

/-- An observer lifecycle event, as emitted by the calls in `fit` on the
observing wrapper's impl. -/
inductive ObsEvent where
  | startEv (phase : String) (hp_grid : ParamGridArg) (op : Operator)
      (num_samples num_grids pgo : Option Nat)
  | failEv (phase : String) (e : Exc)
  | endEv (phase : String) (best : Operator)
  deriving DecidableEq, Repr

def ObsEvent.isStart : ObsEvent → Bool
  | .startEv .. => true
  | _ => false

def ObsEvent.isFail : ObsEvent → Bool
  | .failEv .. => true
  | _ => false

def ObsEvent.isEnd : ObsEvent → Bool
  | .endEv .. => true
  | _ => false

/-- The external functions `fit` calls, abstracted: any behaviour of the
external library is a value of this type.  `halving_search` is the combined
construction plus `grid.fit(X, y)` plus `best_estimator_` access of sklearn's
`HalvingGridSearchCV`; an `Except.error` is an exception raised inside the
`try` block. -/
structure ExternalEnv where
  fold_schema : Nat → Nat → Nat → Bool → Schema
  get_parameter_grids : ObservingOp → Option Nat → Option Nat → Option Nat →
      Schema → List (List Param)
  get_defaults_as_param_grid : ObservingOp → List Param
  halving_search : GridObj → Nat → Nat → Except Exc SearchBest

/-- Embedding of `_HalvingGridSearchCVImpl.__init__`.  A class argument for
`observer` is instantiated; a missing `scoring` is defaulted from
`estimator.is_classifier()`, which raises an `AttributeError` when `estimator`
is `None`. -/
def HalvingInit (estimator : Option Operator) (param_grid : Option ParamGridArg)
    (scoring : Option String) (n_jobs : Option Int) (cv : Nat)
    (lale_num_samples lale_num_grids pgo : Option Nat)
    (observer : ObserverArg) : Except Exc HGSState :=
  let obs : Option Observer :=
    match observer with
    | .noObs => none
    | .inst o => some o
    | .cls o => some o
  match scoring with
  | some sc =>
      .ok ⟨⟨estimator, cv, sc, n_jobs, lale_num_samples, lale_num_grids, pgo,
            param_grid, obs⟩, none, none⟩
  | none =>
      match estimator with
      | none => .error (.attributeError "NoneType object has no attribute is_classifier")
      | some e =>
          let sc := if e.is_classifier then "accuracy" else "r2"
          .ok ⟨⟨estimator, cv, sc, n_jobs, lale_num_samples, lale_num_grids, pgo,
                param_grid, obs⟩, none, none⟩

/-- The operator `fit` works with: the supplied estimator, or the default
`LogisticRegression` when none was supplied. -/
def fitOp (s : HGSState) : Operator :=
  match s.hyperparams.estimator with
  | none => LogisticRegression
  | some e => e

/-- The wrapper `observed_op = Observing(op=op, observer=obs)` built in
`fit` — always built, even when no observer was supplied. -/
def fitObservedOp (s : HGSState) : ObservingOp :=
  Observing (fitOp s) s.hyperparams.observer

/-- The grid after the `hp_grid is None / list / dict` dispatch in `fit`:
generated automatically from the observed operator and the fold data schema,
or the manual grid nested under `"op"`. -/
def fitGrid0 (env : ExternalEnv) (s : HGSState) (X y : Nat) : ParamGridArg :=
  match s.hyperparams.hp_grid with
  | none =>
      .listGrid (env.get_parameter_grids (fitObservedOp s)
        s.hyperparams.lale_num_samples s.hyperparams.lale_num_grids
        s.hyperparams.pgo
        (env.fold_schema X y s.hyperparams.cv (fitOp s).is_classifier))
  | some (.listGrid gs) => .listGrid (nest_all_HPparams "op" gs)
  | some (.dictGrid g) => .dictGrid (nest_HPparams "op" g)

/-- The grid after the empty-grid fallback: an empty grid for an individual
operator is replaced by the one-element default grid. -/
def fitFinalGrid (env : ExternalEnv) (s : HGSState) (X y : Nat) : ParamGridArg :=
  let g := fitGrid0 env s X y
  if g.isFalsy && (fitOp s).isIndividualOp then
    .listGrid [env.get_defaults_as_param_grid (fitObservedOp s)]
  else g

/-- The `HalvingGridSearchCV` constructor call in `fit`: the compat-wrapped
observed operator, the final grid, and the configured `cv`, `scoring`,
`n_jobs`. -/
def fitGridObj (env : ExternalEnv) (s : HGSState) (X y : Nat) : GridObj :=
  ⟨make_sklearn_compat (fitObservedOp s), fitFinalGrid env s X y,
   s.hyperparams.cv, s.hyperparams.scoring, s.hyperparams.n_jobs⟩

/-- The outcome of a `fit` call: the instance state after the call (Python
mutations performed before a raise survive it), the observer events emitted in
order, and the exception propagated to the caller, if any. -/
structure FitResult where
  state : HGSState
  events : List ObsEvent
  err : Option Exc
  deriving DecidableEq, Repr

/-- Embedding of `_HalvingGridSearchCVImpl.fit`. -/
def HalvingFit (env : ExternalEnv) (s : HGSState) (X y : Nat) : FitResult :=
  let op := fitOp s
  let obs := s.hyperparams.observer
  let hp_grid := fitFinalGrid env s X y
  if hp_grid.isFalsy then
    if op.isTrainable then
      { state := { s with best_estimator := some (op.fitOp X y) },
        events := [], err := none }
    else
      { state := s, events := [], err := some .assertionError }
  else
    let startEvents : List ObsEvent :=
      match obs with
      | some _ =>
          [.startEv "optimize" hp_grid op s.hyperparams.lale_num_samples
            s.hyperparams.lale_num_grids s.hyperparams.pgo]
      | none => []
    let gridObj := fitGridObj env s X y
    let s1 := { s with grid := some gridObj }
    match env.halving_search gridObj X y with
    | .error e =>
        let failEvents : List ObsEvent :=
          match obs with
          | some _ => [.failEv "optimize" e]
          | none => []
        { state := s1, events := startEvents ++ failEvents, err := some e }
    | .ok (.withImpl impl) =>
        let be := impl.getOp
        let endEvents : List ObsEvent :=
          match obs with
          | some _ => [.endEv "optimize" be]
          | none => []
        { state := { s1 with best_estimator := some (be.fitOp X y) },
          events := startEvents ++ endEvents, err := none }
    | .ok (.noImpl p) =>
        { state := { s1 with best_estimator := some (p.fitOp X y) },
          events := startEvents, err := none }

/-- Embedding of `_HalvingGridSearchCVImpl.predict`: the assertion on the
stored best estimator, then delegation to it. -/
def HalvingPredict (s : HGSState) (X : Nat) : Except Exc Prediction :=
  match s.best_estimator with
  | none => .error .assertionError
  | some t => .ok (t.predictT X)

/-!
Embedding of `src/lale/lib/sklearn/decision_tree_regressor.py`.

The wrapped third-party `sklearn.tree.DecisionTreeRegressor` instance is a
black box: a mutable state together with the library's `fit` (a state
transformer taking `X`, `y` and the keyword `fit_params`) and `predict`
functions.  Quantifying over `SkModel` quantifies over every possible
behaviour of the third-party estimator.
-/

/-- A black-box third-party sklearn model instance. -/
structure SkModel where
  state : Nat
  fitStep : Nat → Nat → Nat → List Param → Nat
  predictFn : Nat → Nat → Nat

/-- Embedding of calling the third-party model's `fit(X, y, **fit_params)`:
the model's state is updated by its own `fit` behaviour. -/
def SkModel.fitSk (m : SkModel) (X y : Nat) (fit_params : List Param) : SkModel :=
  { m with state := m.fitStep m.state X y fit_params }

/-- Embedding of calling the third-party model's `predict(X)`. -/
def SkModel.predictSk (m : SkModel) (X : Nat) : Nat :=
  m.predictFn m.state X

/-- The state of a `DecisionTreeRegressorImpl` object: the hyperparameter
dictionary (keys abstracted to a single value list, since `fit`/`predict`
never read it) and the wrapped sklearn model. -/
structure DecisionTreeRegressorImpl where
  hyperparams : List Param
  wrapped_model : SkModel

/-- Embedding of `DecisionTreeRegressorImpl.fit`: call the wrapped model's
`fit` with exactly the given `X`, `y` and `fit_params`, and return `self`
(the object whose only change is the wrapped model's own mutation). -/
def DecisionTreeRegressorImpl.fitI (self : DecisionTreeRegressorImpl)
    (X y : Nat) (fit_params : List Param) : DecisionTreeRegressorImpl :=
  { self with wrapped_model := self.wrapped_model.fitSk X y fit_params }

/-- Embedding of `DecisionTreeRegressorImpl.predict`: return exactly the
wrapped model's `predict(X)`. -/
def DecisionTreeRegressorImpl.predictI (self : DecisionTreeRegressorImpl)
    (X : Nat) : Nat :=
  self.wrapped_model.predictSk X

/-- Modelled from the spec: the claimed behaviour "no control logic beyond
delegating fit" — the object after `fit` is the same object with the wrapped
model fitted on exactly the given arguments, and nothing else changed. -/
def spec_delegated_fit (self : DecisionTreeRegressorImpl)
    (X y : Nat) (fit_params : List Param) : DecisionTreeRegressorImpl :=
  ⟨self.hyperparams, self.wrapped_model.fitSk X y fit_params⟩

/-- Modelled from the spec: the claimed behaviour "no control logic beyond
delegating predict" — exactly the wrapped model's prediction. -/
def spec_delegated_predict (self : DecisionTreeRegressorImpl) (X : Nat) : Nat :=
  self.wrapped_model.predictSk X

/-!
Embedding of `src/lale/lib/sklearn/dummy_classifier.py`.

`make_operator` pairs an implementation with its combined schemas; the
`DummyClassifier` operator is `make_operator` applied to the third-party
`sklearn.dummy.DummyClassifier` class itself (not to a hand-written wrapper
class), abstracted here as a black-box class `cls` with `fit`/`predict`
behaviour.
-/

/-- A black-box third-party estimator class: constructing an instance and its
`fit`/`predict` behaviour. -/
structure SkClass where
  mkInstance : Nat → SkModel

/-- A schema set, abstract: the embedding only needs its identity. -/
abbrev Schemas := Nat

/-- Embedding of `lale.operators.make_operator(impl, schemas)`. -/
structure LaleOperatorOf (Impl : Type) where
  impl : Impl
  schemas : Schemas

def make_operator {Impl : Type} (impl : Impl) (schemas : Schemas) :
    LaleOperatorOf Impl :=
  ⟨impl, schemas⟩

/-- The combined schemas of the dummy classifier file, abstracted to a
tag value. -/
def dummy_combined_schemas : Schemas := 1

/-- Embedding of the `DummyClassifier` operator definition:
`make_operator(sklearn.dummy.DummyClassifier, _combined_schemas)` applied to
the third-party class itself. -/
def DummyClassifier (cls : SkClass) : LaleOperatorOf SkClass :=
  make_operator cls dummy_combined_schemas

/-!
Concrete fixtures: a sample observer, operators, states and external
environments used to instantiate the theorems on closed inputs.
-/

/-- A sample observer instance. -/
def obs0 : Observer := ⟨7⟩

/-- A sample individual classifier operator. -/
def opInd : Operator := ⟨1, true, true, true⟩

/-- A sample composite (non-individual) trainable operator. -/
def opPipe : Operator := ⟨2, false, false, true⟩

/-- A sample operator found inside the observing wrapper returned by the
search. -/
def opBest : Operator := ⟨3, false, true, true⟩

/-- A sample best estimator that does not carry an observing impl. -/
def opRaw : Operator := ⟨4, false, true, true⟩

/-- A sample observing impl carried by a wrapped best estimator. -/
def implW : ObservingImplR := ⟨opBest, some obs0⟩

/-- A sample instance state: individual classifier estimator, a manual
one-entry dict grid, and an observer. -/
def sW : HGSState :=
  ⟨⟨some opInd, 5, "accuracy", none, none, none, none,
    some (.dictGrid [("C", 1)]), some obs0⟩, none, none⟩

/-- A sample instance state like `sW` but with no observer supplied. -/
def sC3 : HGSState :=
  ⟨⟨some opInd, 5, "accuracy", none, none, none, none,
    some (.dictGrid [("C", 1)]), none⟩, none, none⟩

/-- A sample instance state whose manual grid is the empty list and whose
estimator is a composite (non-individual) trainable operator. -/
def sEmptyGrid : HGSState :=
  ⟨⟨some opPipe, 5, "r2", none, none, none, none,
    some (.listGrid []), none⟩, none, none⟩

/-- A sample environment whose search succeeds with a wrapped best
estimator. -/
def envWrapped : ExternalEnv :=
  ⟨fun _ _ _ _ => 0, fun _ _ _ _ _ => [[("a", 1)]], fun _ => [("d", 0)],
   fun _ _ _ => .ok (.withImpl implW)⟩

/-- A sample environment whose search raises. -/
def envErr : ExternalEnv :=
  { envWrapped with halving_search := fun _ _ _ => .error (.external 5) }

/-- A sample environment whose search succeeds with a best estimator that
carries no observing impl. -/
def envPlain : ExternalEnv :=
  { envWrapped with halving_search := fun _ _ _ => .ok (.noImpl opRaw) }

/-- The `startObserving("optimize", ...)` event as `fit` emits it: the final
grid, the unwrapped operator, and the configured sampling parameters. -/
def startEvent (env : ExternalEnv) (s : HGSState) (X y : Nat) : ObsEvent :=
  .startEv "optimize" (fitFinalGrid env s X y) (fitOp s)
    s.hyperparams.lale_num_samples s.hyperparams.lale_num_grids s.hyperparams.pgo

/-!
Theorems.
-/

/-- Helper: in every branch of `fit`, the emitted events are either empty or
begin with a `startObserving` event. -/
theorem fit_head_start (env : ExternalEnv) (s : HGSState) (X y : Nat) :
    (HalvingFit env s X y).events = [] ∨
    (HalvingFit env s X y).events.head? = some (startEvent env s X y) := by
  unfold HalvingFit
  cases hfg : (fitFinalGrid env s X y).isFalsy with
  | true => cases ht : (fitOp s).isTrainable <;> simp [hfg, ht]
  | false =>
    cases hs : env.halving_search (fitGridObj env s X y) X y with
    | error e =>
      cases hobs : s.hyperparams.observer <;> simp [hfg, hs, hobs, startEvent]
    | ok b =>
      cases b <;> cases hobs : s.hyperparams.observer <;>
        simp [hfg, hs, hobs, startEvent]

/-- C10: `fit` leaves the hyperparameter dictionary captured at construction
unchanged; the only instance state it writes is the stored best estimator and
the grid-search object, which are the remaining fields of `HGSState`. -/
theorem C10_hyperparams_frame (env : ExternalEnv) (s : HGSState) (X y : Nat) :
    (HalvingFit env s X y).state.hyperparams = s.hyperparams := by
  unfold HalvingFit
  cases hfg : (fitFinalGrid env s X y).isFalsy with
  | true => cases ht : (fitOp s).isTrainable <;> simp [hfg, ht]
  | false =>
    cases hs : env.halving_search (fitGridObj env s X y) X y with
    | error e => cases hobs : s.hyperparams.observer <;> simp [hfg, hs, hobs]
    | ok b =>
      cases b <;> cases hobs : s.hyperparams.observer <;> simp [hfg, hs, hobs]

/-- C9: `predict` on an instance whose stored best estimator is `None` fails
the guarding assertion; when a best estimator is stored, `predict` returns its
prediction and the error branch is not taken. -/
theorem C9_predict_guard (s : HGSState) (X : Nat) :
    (s.best_estimator = none → HalvingPredict s X = .error .assertionError) ∧
    (∀ t : TrainedOperator, s.best_estimator = some t →
      HalvingPredict s X = .ok (t.predictT X)) := by
  constructor
  · intro h
    simp [HalvingPredict, h]
  · intro t h
    simp [HalvingPredict, h]

/-- C9 witness: on the fresh sample state the assertion fails, and after
storing a trained operator `predict` returns its prediction. -/
theorem C9_predict_guard_witness :
    sW.best_estimator = none ∧ HalvingPredict sW 1 = .error .assertionError :=
  ⟨rfl, (C9_predict_guard sW 1).1 rfl⟩

/-- C8: with `scoring` left as `None`, `__init__` derives the default score
from `estimator.is_classifier()` as passed, so a `None` estimator makes the
constructor raise; a classifier estimator defaults scoring to `"accuracy"`
and any other estimator to `"r2"`. -/
theorem C8_init_scoring_default (pg : Option ParamGridArg) (nj : Option Int)
    (cv : Nat) (ns ng pgo : Option Nat) (oa : ObserverArg) :
    (∃ msg, HalvingInit none pg none nj cv ns ng pgo oa =
      .error (.attributeError msg)) ∧
    (∀ e : Operator, ∃ st : HGSState,
      HalvingInit (some e) pg none nj cv ns ng pgo oa = .ok st ∧
      st.hyperparams.scoring = (if e.is_classifier then "accuracy" else "r2") ∧
      st.hyperparams.estimator = some e) := by
  constructor
  · exact ⟨_, rfl⟩
  · intro e
    exact ⟨_, rfl, rfl, rfl⟩

/-- C7: the schema-described estimator wrappers only delegate — the
`DecisionTreeRegressorImpl` methods equal the spec-side pure delegation
functions (fit forwards exactly `X`, `y`, `fit_params` to the wrapped model
and returns self with nothing else changed; predict returns exactly the
wrapped model's prediction), and the `DummyClassifier` operator's impl is the
third-party class itself, so its behaviour is that class's behaviour. -/
theorem C7_wrappers_delegate (impl : DecisionTreeRegressorImpl) (X y : Nat)
    (fp : List Param) (X2 : Nat) (cls : SkClass) :
    impl.fitI X y fp = spec_delegated_fit impl X y fp ∧
    (impl.fitI X y fp).hyperparams = impl.hyperparams ∧
    (impl.fitI X y fp).wrapped_model = impl.wrapped_model.fitSk X y fp ∧
    impl.predictI X2 = spec_delegated_predict impl X2 ∧
    impl.predictI X2 = impl.wrapped_model.predictFn impl.wrapped_model.state X2 ∧
    (DummyClassifier cls).impl = cls ∧
    ((DummyClassifier cls).impl).mkInstance = cls.mkInstance :=
  ⟨rfl, rfl, rfl, rfl, rfl, rfl, rfl⟩

/-- Helper: whenever a fail or end event appears in the events of a `fit`
call, the event trace begins with a start event. -/
theorem fit_fail_end_have_start (env : ExternalEnv) (s : HGSState) (X y : Nat) :
    (HalvingFit env s X y).events.any (fun ev => ev.isFail || ev.isEnd) = true →
    Option.map ObsEvent.isStart (HalvingFit env s X y).events.head? = some true := by
  unfold HalvingFit
  cases hfg : (fitFinalGrid env s X y).isFalsy with
  | true => cases ht : (fitOp s).isTrainable <;> simp [hfg, ht]
  | false =>
    cases hs : env.halving_search (fitGridObj env s X y) X y with
    | error e =>
      cases hobs : s.hyperparams.observer <;>
        simp [hfg, hs, hobs, ObsEvent.isStart, ObsEvent.isFail, ObsEvent.isEnd]
    | ok b =>
      cases b <;> cases hobs : s.hyperparams.observer <;>
        simp [hfg, hs, hobs, ObsEvent.isStart, ObsEvent.isFail, ObsEvent.isEnd]

/-- C1: with a non-empty final grid and a supplied observer, `fit` emits
`startObserving("optimize", ...)` first (before the search outcome decides
the rest of the trace); a raising search yields exactly a following
`failObserving("optimize", e)` and propagates `e`; a successful search whose
best estimator carries an observing impl yields exactly a following
`endObserving("optimize", best)` with the unwrapped best operator; fail and
end never both occur, and neither ever occurs without a preceding start. -/
theorem C1_observer_lifecycle (env : ExternalEnv) (s : HGSState) (X y : Nat)
    (o : Observer) (hobs : s.hyperparams.observer = some o)
    (hgrid : (fitFinalGrid env s X y).isFalsy = false) :
    (HalvingFit env s X y).events.head? = some (startEvent env s X y) ∧
    (∀ e : Exc, env.halving_search (fitGridObj env s X y) X y = .error e →
      (HalvingFit env s X y).events =
        [startEvent env s X y, .failEv "optimize" e] ∧
      (HalvingFit env s X y).err = some e) ∧
    (∀ impl : ObservingImplR,
      env.halving_search (fitGridObj env s X y) X y = .ok (.withImpl impl) →
      (HalvingFit env s X y).events =
        [startEvent env s X y, .endEv "optimize" impl.getOp] ∧
      (HalvingFit env s X y).err = none) ∧
    ¬ ((HalvingFit env s X y).events.any ObsEvent.isFail = true ∧
       (HalvingFit env s X y).events.any ObsEvent.isEnd = true) ∧
    (∀ s2 : HGSState, ∀ X2 y2 : Nat,
      (HalvingFit env s2 X2 y2).events.any (fun ev => ev.isFail || ev.isEnd) = true →
      Option.map ObsEvent.isStart (HalvingFit env s2 X2 y2).events.head? =
        some true) := by
  refine ⟨?_, ?_, ?_, ?_, fun s2 X2 y2 => fit_fail_end_have_start env s2 X2 y2⟩
  · unfold HalvingFit
    cases hs : env.halving_search (fitGridObj env s X y) X y with
    | error e => simp [hgrid, hobs, hs, startEvent]
    | ok b => cases b <;> simp [hgrid, hobs, hs, startEvent]
  · intro e he
    unfold HalvingFit
    simp [hgrid, hobs, he, startEvent]
  · intro impl himpl
    unfold HalvingFit
    simp [hgrid, hobs, himpl, startEvent]
  · unfold HalvingFit
    cases hs : env.halving_search (fitGridObj env s X y) X y with
    | error e =>
      simp [hgrid, hobs, hs, ObsEvent.isFail, ObsEvent.isEnd]
    | ok b =>
      cases b <;> simp [hgrid, hobs, hs, ObsEvent.isFail, ObsEvent.isEnd]

/-- C1 witness: on a concrete state with an observer and a non-empty manual
grid, the hypotheses hold and the emitted trace begins with the start
event. -/
theorem C1_observer_lifecycle_witness :
    sW.hyperparams.observer = some obs0 ∧
    (fitFinalGrid envWrapped sW 1 2).isFalsy = false ∧
    (HalvingFit envWrapped sW 1 2).events.head? =
      some (startEvent envWrapped sW 1 2) :=
  ⟨rfl, by decide,
   (C1_observer_lifecycle envWrapped sW 1 2 obs0 rfl (by decide)).1⟩

/-- C2: the grid dispatch of `fit` — a missing `param_grid` is generated
automatically from the observer-wrapped operator with the fold data schema; a
manual list grid is nested entrywise under `"op"` via `nest_all_HPparams`, a
manual dict grid under `"op"` via `nest_HPparams`, so every key addresses the
operator inside the observing wrapper; the grid handed to the search object
is the resulting one. -/
theorem C2_grid_dispatch (env : ExternalEnv) (s : HGSState) (X y : Nat) :
    (s.hyperparams.hp_grid = none →
      fitGrid0 env s X y = .listGrid (env.get_parameter_grids (fitObservedOp s)
        s.hyperparams.lale_num_samples s.hyperparams.lale_num_grids
        s.hyperparams.pgo
        (env.fold_schema X y s.hyperparams.cv (fitOp s).is_classifier))) ∧
    (∀ gs, s.hyperparams.hp_grid = some (.listGrid gs) →
      fitGrid0 env s X y = .listGrid (nest_all_HPparams "op" gs) ∧
      ∀ g ∈ nest_all_HPparams "op" gs, ∀ kv ∈ g,
        ∃ k, kv.1 = "op" ++ "__" ++ k) ∧
    (∀ g, s.hyperparams.hp_grid = some (.dictGrid g) →
      fitGrid0 env s X y = .dictGrid (nest_HPparams "op" g) ∧
      ∀ kv ∈ nest_HPparams "op" g, ∃ k, kv.1 = "op" ++ "__" ++ k) ∧
    ((fitFinalGrid env s X y).isFalsy = false →
      (HalvingFit env s X y).state.grid = some (fitGridObj env s X y) ∧
      (fitGridObj env s X y).grid = fitFinalGrid env s X y) := by
  refine ⟨?_, ?_, ?_, ?_⟩
  · intro h
    simp [fitGrid0, h]
  · intro gs hgs
    refine ⟨by simp [fitGrid0, hgs], ?_⟩
    intro g hg kv hkv
    simp only [nest_all_HPparams, List.mem_map] at hg
    obtain ⟨g0, _, rfl⟩ := hg
    simp only [nest_HPparams, List.mem_map] at hkv
    obtain ⟨kv0, _, rfl⟩ := hkv
    exact ⟨kv0.1, rfl⟩
  · intro g hg
    refine ⟨by simp [fitGrid0, hg], ?_⟩
    intro kv hkv
    simp only [nest_HPparams, List.mem_map] at hkv
    obtain ⟨kv0, _, rfl⟩ := hkv
    exact ⟨kv0.1, rfl⟩
  · intro hgrid
    refine ⟨?_, rfl⟩
    unfold HalvingFit
    cases hs : env.halving_search (fitGridObj env s X y) X y with
    | error e => cases hobs : s.hyperparams.observer <;> simp [hgrid, hobs, hs]
    | ok b =>
      cases b <;> cases hobs : s.hyperparams.observer <;> simp [hgrid, hobs, hs]

/-- C2 witness: on a concrete state with a manual dict grid, the grid used by
`fit` is the dict nested under `"op"`. -/
theorem C2_grid_dispatch_witness :
    sW.hyperparams.hp_grid = some (.dictGrid [("C", 1)]) ∧
    fitGrid0 envWrapped sW 1 2 = .dictGrid (nest_HPparams "op" [("C", 1)]) :=
  ⟨rfl, ((C2_grid_dispatch envWrapped sW 1 2).2.2.1 [("C", 1)] rfl).1⟩

/-- C3: `fit` always builds the observing wrapper around the operator — also
when no observer was supplied — and the estimator handed to the external
search object is the compat-wrapped observing wrapper. -/
theorem C3_always_wrapped (env : ExternalEnv) (s : HGSState) (X y : Nat) :
    fitObservedOp s = Observing (fitOp s) s.hyperparams.observer ∧
    (fitGridObj env s X y).est =
      make_sklearn_compat (Observing (fitOp s) s.hyperparams.observer) ∧
    (s.hyperparams.observer = none →
      (fitGridObj env s X y).est =
        make_sklearn_compat (Observing (fitOp s) none)) ∧
    ((fitFinalGrid env s X y).isFalsy = false →
      (HalvingFit env s X y).state.grid = some (fitGridObj env s X y)) := by
  refine ⟨rfl, rfl, ?_, ?_⟩
  · intro h
    simp [fitGridObj, fitObservedOp, h]
  · intro hgrid
    unfold HalvingFit
    cases hs : env.halving_search (fitGridObj env s X y) X y with
    | error e => cases hobs : s.hyperparams.observer <;> simp [hgrid, hobs, hs]
    | ok b =>
      cases b <;> cases hobs : s.hyperparams.observer <;> simp [hgrid, hobs, hs]

/-- C3 witness: on a concrete state without an observer the search object
still holds the compat-wrapped observing wrapper. -/
theorem C3_always_wrapped_witness :
    sC3.hyperparams.observer = none ∧
    (fitGridObj envWrapped sC3 1 2).est =
      make_sklearn_compat (Observing (fitOp sC3) none) :=
  ⟨rfl, (C3_always_wrapped envWrapped sC3 1 2).2.2.1 rfl⟩

/-- C4 counterexample: on a call whose manual grid is the empty list and
whose operator is a composite trainable operator, `fit` completes normally
without ever constructing or invoking the external search (`self.grid` is
never set) — it fits the operator directly instead.  So the external routine
is not invoked on every call to `fit`. -/
theorem C4_counterexample :
    (HalvingFit envWrapped sEmptyGrid 1 2).err = none ∧
    (HalvingFit envWrapped sEmptyGrid 1 2).state.grid = none ∧
    (HalvingFit envWrapped sEmptyGrid 1 2).state.best_estimator =
      some (opPipe.fitOp 1 2) := by
  refine ⟨rfl, rfl, rfl⟩

/-- C4 (amended): on every call to `fit` whose resulting grid is non-empty,
the orchestrator stores the external search object built from the
compat-wrapped operator, the built grid, and the configured `cv`, `scoring`
and `n_jobs`; a raising search propagates its exception and a successful
wrapped result is unwrapped into the stored best estimator. -/
theorem C4_orchestration (env : ExternalEnv) (s : HGSState) (X y : Nat)
    (hgrid : (fitFinalGrid env s X y).isFalsy = false) :
    (HalvingFit env s X y).state.grid = some (fitGridObj env s X y) ∧
    fitGridObj env s X y = ⟨make_sklearn_compat (fitObservedOp s),
      fitFinalGrid env s X y, s.hyperparams.cv, s.hyperparams.scoring,
      s.hyperparams.n_jobs⟩ ∧
    (∀ e : Exc, env.halving_search (fitGridObj env s X y) X y = .error e →
      (HalvingFit env s X y).err = some e) ∧
    (∀ impl : ObservingImplR,
      env.halving_search (fitGridObj env s X y) X y = .ok (.withImpl impl) →
      (HalvingFit env s X y).state.best_estimator =
        some (impl.getOp.fitOp X y)) := by
  refine ⟨?_, rfl, ?_, ?_⟩
  · unfold HalvingFit
    cases hs : env.halving_search (fitGridObj env s X y) X y with
    | error e => cases hobs : s.hyperparams.observer <;> simp [hgrid, hobs, hs]
    | ok b =>
      cases b <;> cases hobs : s.hyperparams.observer <;> simp [hgrid, hobs, hs]
  · intro e he
    unfold HalvingFit
    cases hobs : s.hyperparams.observer <;> simp [hgrid, hobs, he]
  · intro impl himpl
    unfold HalvingFit
    cases hobs : s.hyperparams.observer <;> simp [hgrid, hobs, himpl]

/-- C4 witness: on a concrete state with a non-empty grid, the search object
is stored with the configured arguments. -/
theorem C4_orchestration_witness :
    (fitFinalGrid envWrapped sW 1 2).isFalsy = false ∧
    (HalvingFit envWrapped sW 1 2).state.grid =
      some (fitGridObj envWrapped sW 1 2) :=
  ⟨by decide, (C4_orchestration envWrapped sW 1 2 (by decide)).1⟩

/-- C5 counterexample: a call in which the external search succeeds but its
best estimator carries no observing impl — no `getOp` unwrapping happens; the
raw best estimator is refit and stored directly.  So a successful search does
not always lead to unwrapping via `getOp`. -/
theorem C5_counterexample :
    envPlain.halving_search (fitGridObj envPlain sW 1 2) 1 2 =
      .ok (.noImpl opRaw) ∧
    SearchBest.hasImpl (.noImpl opRaw) = false ∧
    (HalvingFit envPlain sW 1 2).err = none ∧
    (HalvingFit envPlain sW 1 2).state.best_estimator =
      some (opRaw.fitOp 1 2) := by
  refine ⟨rfl, rfl, rfl, rfl⟩

/-- C5 (amended): on every call whose grid is non-empty and whose external
search succeeds, a best estimator that carries an observing impl is unwrapped
via `getOp`; the (possibly unwrapped) operator is refit on the full `X`, `y`
and stored as the best estimator, and every subsequent `predict(X2)` returns
the stored best estimator's prediction. -/
theorem C5_unwrap_refit_predict (env : ExternalEnv) (s : HGSState) (X y : Nat)
    (hgrid : (fitFinalGrid env s X y).isFalsy = false) :
    (∀ impl : ObservingImplR,
      env.halving_search (fitGridObj env s X y) X y = .ok (.withImpl impl) →
      (HalvingFit env s X y).state.best_estimator =
        some (impl.getOp.fitOp X y) ∧
      ∀ X2 : Nat, HalvingPredict (HalvingFit env s X y).state X2 =
        .ok ((impl.getOp.fitOp X y).predictT X2)) ∧
    (∀ p : Operator,
      env.halving_search (fitGridObj env s X y) X y = .ok (.noImpl p) →
      (HalvingFit env s X y).state.best_estimator = some (p.fitOp X y) ∧
      ∀ X2 : Nat, HalvingPredict (HalvingFit env s X y).state X2 =
        .ok ((p.fitOp X y).predictT X2)) := by
  constructor
  · intro impl himpl
    have hbest : (HalvingFit env s X y).state.best_estimator =
        some (impl.getOp.fitOp X y) := by
      unfold HalvingFit
      cases hobs : s.hyperparams.observer <;> simp [hgrid, hobs, himpl]
    exact ⟨hbest, fun X2 => by simp [HalvingPredict, hbest]⟩
  · intro p hp
    have hbest : (HalvingFit env s X y).state.best_estimator =
        some (p.fitOp X y) := by
      unfold HalvingFit
      cases hobs : s.hyperparams.observer <;> simp [hgrid, hobs, hp]
    exact ⟨hbest, fun X2 => by simp [HalvingPredict, hbest]⟩

/-- C5 witness: on a concrete state whose search returns a wrapped best
estimator, the stored best estimator is the unwrapped operator refit on the
full data. -/
theorem C5_unwrap_refit_predict_witness :
    (fitFinalGrid envWrapped sW 1 2).isFalsy = false ∧
    (HalvingFit envWrapped sW 1 2).state.best_estimator =
      some (implW.getOp.fitOp 1 2) :=
  ⟨by decide,
   ((C5_unwrap_refit_predict envWrapped sW 1 2 (by decide)).1 implW rfl).1⟩

/-- C6: when the external search raises, `fit` propagates the exception and
the stored best estimator is unchanged (in particular it remains `None` when
no earlier fit succeeded), so a failed fit does not alter what `predict`
would do. -/
theorem C6_failure_keeps_best (env : ExternalEnv) (s : HGSState) (X y : Nat)
    (e : Exc) (hgrid : (fitFinalGrid env s X y).isFalsy = false)
    (hs : env.halving_search (fitGridObj env s X y) X y = .error e) :
    (HalvingFit env s X y).err = some e ∧
    (HalvingFit env s X y).state.best_estimator = s.best_estimator ∧
    (s.best_estimator = none →
      (HalvingFit env s X y).state.best_estimator = none) ∧
    (∀ X2 : Nat, HalvingPredict (HalvingFit env s X y).state X2 =
      HalvingPredict s X2) := by
  have hbest : (HalvingFit env s X y).state.best_estimator =
      s.best_estimator := by
    unfold HalvingFit
    cases hobs : s.hyperparams.observer <;> simp [hgrid, hobs, hs]
  have herr : (HalvingFit env s X y).err = some e := by
    unfold HalvingFit
    cases hobs : s.hyperparams.observer <;> simp [hgrid, hobs, hs]
  exact ⟨herr, hbest, fun h => by rw [hbest, h],
    fun X2 => by simp only [HalvingPredict, hbest]⟩

/-- C6 witness: on a concrete fresh state whose search raises, the exception
is propagated and the stored best estimator stays `None`. -/
theorem C6_failure_keeps_best_witness :
    (fitFinalGrid envErr sW 1 2).isFalsy = false ∧
    envErr.halving_search (fitGridObj envErr sW 1 2) 1 2 =
      .error (.external 5) ∧
    (HalvingFit envErr sW 1 2).err = some (.external 5) :=
  ⟨by decide, rfl,
   (C6_failure_keeps_best envErr sW 1 2 (.external 5) (by decide) rfl).1⟩

end LaleSpec
